import Mathlib

/-!
Verification of the Stream Dock 293 device-protocol engine
(`bin/streamdock_launcher.py`) against its natural-language specification.

Bytes are modelled as `Nat` (each < 256 where the source guarantees it),
byte strings as `List Nat`, Python exception messages as `List Char`.
Stateful HID access is modelled by explicit state passing: the device
handle is an `Option Unit`, and the outcome of each underlying
`device.write` call is supplied by an environment oracle.
-/

namespace StreamDock

/-- Report payload size (`REPORT_SIZE = 512` in the source). -/
def REPORT_SIZE : Nat := 512

/-- The 5-byte magic `b"CRT\x00\x00"` that starts every command header
(the source's module-level constant). -/
def MAGIC : List Nat := [0x43, 0x52, 0x54, 0x00, 0x00]

/-- `CMD_BAT = b"BAT"`. -/
def CMD_BAT : List Nat := [0x42, 0x41, 0x54]

/-- `CMD_STP = b"STP\x00\x00"`. -/
def CMD_STP : List Nat := [0x53, 0x54, 0x50, 0x00, 0x00]

/-- `CMD_LIG = b"LIG\x00\x00"`. -/
def CMD_LIG : List Nat := [0x4C, 0x49, 0x47, 0x00, 0x00]

/-- `CMD_WPA = b"WPA"`. -/
def CMD_WPA : List Nat := [0x57, 0x50, 0x41]

/-- Python `n.to_bytes(4, "big")` for `n < 2^32`. -/
def toBytesBE4 (n : Nat) : List Nat :=
  [n / 2 ^ 24 % 256, n / 2 ^ 16 % 256, n / 2 ^ 8 % 256, n % 256]

/-- Python `bytes([k])`: a one-byte string when `0 ≤ k ≤ 255`,
`ValueError` (modelled as `none`) otherwise. -/
def bytesSingle (k : Int) : Option (List Nat) :=
  if 0 ≤ k ∧ k ≤ 255 then some [k.toNat] else none

/-- The payload adjustment done inside `_send_report`: truncate payloads
longer than `REPORT_SIZE`, right-pad shorter ones with zero bytes
(`payload.ljust(REPORT_SIZE, b"\x00")`). -/
def adjustPayload (p : List Nat) : List Nat :=
  if p.length > REPORT_SIZE then p.take REPORT_SIZE
  else p ++ List.replicate (REPORT_SIZE - p.length) 0

/-- The exact byte string `_send_report` hands to `device.write`:
`b"\x00" + payload` after the adjustment to 512 bytes. -/
def sendReportWire (p : List Nat) : List Nat := 0 :: adjustPayload p

/-! ### Error classification in `_send_report` -/

/-- `a` is an initial segment of `b` (character-wise). -/
def leadsWith : List Char → List Char → Bool
  | [], _ => true
  | _ :: _, [] => false
  | a :: as, b :: bs => a = b && leadsWith as bs

/-- Python's substring test `needle in hay` on character lists. -/
def strIn (needle : List Char) : List Char → Bool
  | [] => leadsWith needle []
  | c :: t => leadsWith needle (c :: t) || strIn needle t

/-- Python `s.lower()` on a character list. -/
def strLower (s : List Char) : List Char := s.map Char.toLower

/-- The fatal-error test in `_send_report`'s `except OSError` branch:
`"device" in str(e).lower() or "broken pipe" in str(e).lower()`. -/
def isFatalMsg (msg : List Char) : Bool :=
  strIn "device".data (strLower msg) || strIn "broken pipe".data (strLower msg)

/-- Outcome of one underlying `device.write` call, supplied by the
environment: success, an `OSError` carrying its message, or any other
exception. -/
inductive WriteOutcome where
  | ok
  | osError (msg : List Char)
  | otherError
  deriving DecidableEq

/-- Result of one `_send_report` call: the (possibly cleared) device
handle and the byte strings actually handed to `device.write`.
`_send_report` catches every exception, so no error field exists. -/
structure SendResult where
  device : Option Unit
  writes : List (List Nat)
  deriving DecidableEq

/-- `_send_report(payload)`: returns silently without writing when no
device handle is held; otherwise pads/truncates and writes
`b"\x00" + payload`; on `OSError` clears the handle exactly when the
message matches the fatal test; any other exception is logged and
swallowed with the handle kept. -/
def sendReport (device : Option Unit) (payload : List Nat)
    (outcome : WriteOutcome) : SendResult :=
  match device with
  | none => ⟨none, []⟩
  | some _ =>
    match outcome with
    | .ok => ⟨some (), [sendReportWire payload]⟩
    | .osError msg =>
        ⟨if isFatalMsg msg then none else some (), [sendReportWire payload]⟩
    | .otherError => ⟨some (), [sendReportWire payload]⟩

/-- A sequence of `_send_report` calls, threading the device handle and
collecting every write attempted on the wire. Each list entry pairs the
payload passed to `_send_report` with the environment's outcome for the
underlying write (unused when the handle is already gone). -/
def sendSeq : Option Unit → List (List Nat × WriteOutcome) →
    Option Unit × List (List Nat)
  | device, [] => (device, [])
  | device, (p, oc) :: rest =>
    let r := sendReport device p oc
    let (d', ws) := sendSeq r.device rest
    (d', r.writes ++ ws)

/-! ### Image upload (`set_key_image`) and brightness (`set_brightness`) -/

/-- Python `range(0, stop, step)` for `step > 0`. -/
def rangeStep (stop step : Nat) : List Nat :=
  (List.range ((stop + step - 1) / step)).map (· * step)

/-- The data-chunk payloads of `set_key_image`:
`img_data[i : i + REPORT_SIZE]` for `i in range(0, size, REPORT_SIZE)`. -/
def chunkPayloads (img : List Nat) : List (List Nat) :=
  (rangeStep img.length REPORT_SIZE).map (fun i => (img.drop i).take REPORT_SIZE)

/-- The payload sequence `set_key_image(key, path, cmd)` passes to
`_send_report` once the image file's bytes `img` are read: header
(magic + cmd + 4-byte big-endian size + slot byte), then the raw data
chunks, then the `STP` commit. `bytes([key])` raises `ValueError` for a
slot outside 0..255 while the header is being built; the surrounding
`except` swallows it, so nothing at all is sent in that case. -/
def setKeyImagePayloads (cmd : List Nat) (key : Int) (img : List Nat) :
    List (List Nat) :=
  match bytesSingle key with
  | none => []
  | some kb =>
      (MAGIC ++ cmd ++ toBytesBE4 img.length ++ kb)
        :: chunkPayloads img ++ [MAGIC ++ CMD_STP]

/-- The payload sequence `set_brightness(value)` passes to
`_send_report`: for value 0, a global zero command then a sweep of all
256 per-slot zero commands (`MAGIC + CMD_LIG + size(0) + index`); for
any other value, the single global command `MAGIC + CMD_LIG +
bytes([value])`, where `bytes([value])` raises (swallowed, nothing
sent) outside 0..255. -/
def setBrightnessPayloads (value : Int) : List (List Nat) :=
  if value = 0 then
    (MAGIC ++ CMD_LIG ++ [0])
      :: (List.range 256).map (fun idx => MAGIC ++ CMD_LIG ++ toBytesBE4 0 ++ [idx])
  else
    match bytesSingle value with
    | none => []
    | some vb => [MAGIC ++ CMD_LIG ++ vb]

/-! ### Key-event decoding -/

/-- Press/release state from byte 10 of an inbound report. -/
inductive KState where
  | pressed
  | released
  deriving DecidableEq

/-- A decoded key event: raw scan code, mapped logical key, state. -/
structure KeyEvent where
  raw : Nat
  logical : Nat
  state : KState
  deriving DecidableEq

/-- `self.key_map`: physical scan code → logical key, as the association
list built in `__init__`. -/
def key_map : List (Nat × Nat) :=
  [(0x0b, 1), (0x0c, 2), (0x0d, 3), (0x0e, 4), (0x0f, 5),
   (0x06, 6), (0x07, 7), (0x08, 8), (0x09, 9), (0x0a, 10),
   (0x01, 11), (0x02, 12), (0x03, 13), (0x04, 14), (0x05, 15)]

/-- `self.key_map.get(raw_key, raw_key)`: table lookup with identity
fallback. -/
def keyMapGet (raw : Nat) : Nat := ((key_map.lookup raw).getD raw)

/-- The key-event extraction in `run()`'s read branch: requires at least
11 bytes, ignores reports whose byte 9 is `0x00` or `0xFF`, takes the
raw code from byte 9 and the state from byte 10 (`0x01` pressed, `0x02`
released, anything else ignored). -/
def parseKeyEvent (data : List Nat) : Option KeyEvent :=
  if 11 ≤ data.length then
    let b9 := data.getD 9 0
    if b9 ≠ 0xFF ∧ b9 ≠ 0 then
      let st := data.getD 10 0
      if st = 0x01 then some ⟨b9, keyMapGet b9, .pressed⟩
      else if st = 0x02 then some ⟨b9, keyMapGet b9, .released⟩
      else none
    else none
  else none

/-! ### The polling loop (`run`) -/

/-- The loop state: the device handle and the configured brightness that
a reconnection replays. -/
structure LoopState where
  device : Option Unit
  brightness : Nat
  deriving DecidableEq

/-- Outcome of the reconnection attempt made when the handle is gone. -/
inductive OpenResult where
  | ok
  | fail
  deriving DecidableEq

/-- Outcome of one `device.read` call: data, timeout (empty read), an
`OSError`/`ValueError` (treated as disconnection), or any other
exception (logged, handle kept). -/
inductive ReadResult where
  | data (d : List Nat)
  | timeout
  | fatalErr
  | otherErr
  deriving DecidableEq

/-- Observable actions of one loop iteration, in order. -/
inductive Action where
  | setBright (v : Nat)
  | updateAllKeys
  | dispatchKey (k : Nat)
  | logRelease (k : Nat)
  deriving DecidableEq

/-- The read half of a loop iteration: dispatches the key handler on a
pressed edge, logs a released edge, clears the handle on a fatal read
error. -/
def readPhase (st : LoopState) (rd : ReadResult) : LoopState × List Action :=
  match rd with
  | .data d =>
    match parseKeyEvent d with
    | some ev =>
      match ev.state with
      | .pressed => (st, [.dispatchKey ev.logical])
      | .released => (st, [.logRelease ev.logical])
    | none => (st, [])
  | .timeout => (st, [])
  | .fatalErr => ({ st with device := none }, [])
  | .otherErr => (st, [])

/-- One iteration of `run()`'s `while` loop. With no handle, a failed
reopen just sleeps and continues; a successful reopen replays the
configuration (`set_brightness(self.config.brightness)` then
`update_all_keys`) and falls through to the read of the same iteration.
With a handle, the iteration is just the read. -/
def iteration (st : LoopState) (op : OpenResult) (rd : ReadResult) :
    LoopState × List Action :=
  match st.device with
  | none =>
    match op with
    | .fail => (st, [])
    | .ok =>
      let st1 : LoopState := { st with device := some () }
      let (st2, as) := readPhase st1 rd
      (st2, Action.setBright st.brightness :: Action.updateAllKeys :: as)
  | some _ => readPhase st rd

/-- Run the loop over a list of environment inputs, one per iteration,
concatenating the actions. -/
def runTrace (st : LoopState) : List (OpenResult × ReadResult) →
    LoopState × List Action
  | [] => (st, [])
  | (op, rd) :: rest =>
    let (st', as) := iteration st op rd
    let (st'', as') := runTrace st' rest
    (st'', as ++ as')

/-- Number of configuration replays recorded in an action list
(`update_all_keys` happens exactly once per replay). -/
def countReplays (as : List Action) : Nat :=
  (as.filter (fun a => a = Action.updateAllKeys)).length

/-- `set_key_image` together with the environment's outcome for each of
its `_send_report` calls (`ocs i` is the outcome of the `i`-th call):
the final handle and every byte string written on the wire. -/
def setKeyImageSend (device : Option Unit) (cmd : List Nat) (key : Int)
    (img : List Nat) (ocs : Nat → WriteOutcome) : Option Unit × List (List Nat) :=
  sendSeq device
    ((setKeyImagePayloads cmd key img).enum.map (fun pa => (pa.2, ocs pa.1)))

/-! ### Helper lemmas -/

set_option maxRecDepth 20000

lemma chunkPayloads_nil : chunkPayloads [] = [] := by
  simp [chunkPayloads, rangeStep, REPORT_SIZE]

lemma chunkPayloads_cons (img : List Nat) (h : 0 < img.length) :
    chunkPayloads img = img.take 512 :: chunkPayloads (img.drop 512) := by
  have hn : (img.length + 512 - 1) / 512 = ((img.length - 512) + 512 - 1) / 512 + 1 := by
    omega
  simp only [chunkPayloads, rangeStep, REPORT_SIZE, List.length_drop, hn,
    List.range_succ_eq_map, List.map_cons, List.map_map]
  congr 1
  simp only [List.map_inj_left, List.mem_range]
  intro a ha
  simp only [Function.comp_apply, List.drop_drop]
  congr 2
  omega

lemma chunkPayloads_flatten (img : List Nat) : (chunkPayloads img).flatten = img := by
  have H : ∀ n (l : List Nat), l.length ≤ n → (chunkPayloads l).flatten = l := by
    intro n
    induction n with
    | zero =>
      intro l hl
      have hl0 : l = [] := by
        cases l with
        | nil => rfl
        | cons a t => simp at hl
      subst hl0
      simp [chunkPayloads_nil]
    | succ n ih =>
      intro l hl
      rcases Nat.eq_zero_or_pos l.length with h0 | hpos
      · have hl0 : l = [] := by
          cases l with
          | nil => rfl
          | cons a t => simp at h0
        subst hl0
        simp [chunkPayloads_nil]
      · rw [chunkPayloads_cons l hpos, List.flatten_cons,
          ih (l.drop 512) (by simp; omega)]
        exact List.take_append_drop 512 l
  exact H img.length img le_rfl

lemma chunkPayloads_length (img : List Nat) :
    (chunkPayloads img).length = (img.length + 511) / 512 := by
  simp [chunkPayloads, rangeStep, REPORT_SIZE]

lemma chunkPayloads_short (img : List Nat) :
    ∀ c ∈ chunkPayloads img, c.length ≤ 512 := by
  intro c hc
  simp only [chunkPayloads, rangeStep, REPORT_SIZE, List.mem_map] at hc
  obtain ⟨i, _, rfl⟩ := hc
  simp [List.length_take]

lemma sendSeq_none (l : List (List Nat × WriteOutcome)) :
    sendSeq none l = (none, []) := by
  induction l with
  | nil => rfl
  | cons hd tl ih =>
    obtain ⟨p, oc⟩ := hd
    simp [sendSeq, sendReport, ih]

lemma sendReport_fatal (device : Option Unit) (p : List Nat) (msg : List Char)
    (h : isFatalMsg msg = true) :
    (sendReport device p (.osError msg)).device = none := by
  cases device with
  | none => rfl
  | some u => simp [sendReport, h]

lemma sendSeq_split (device : Option Unit) (l1 l2 : List (List Nat × WriteOutcome)) :
    sendSeq device (l1 ++ l2) =
      ((sendSeq (sendSeq device l1).1 l2).1,
       (sendSeq device l1).2 ++ (sendSeq (sendSeq device l1).1 l2).2) := by
  induction l1 generalizing device with
  | nil => simp [sendSeq]
  | cons hd tl ih =>
    obtain ⟨p, oc⟩ := hd
    simp only [List.cons_append, sendSeq]
    simp [ih, List.append_assoc]

lemma adjustPayload_length (p : List Nat) : (adjustPayload p).length = 512 := by
  unfold adjustPayload REPORT_SIZE
  split
  · simp
    omega
  · simp
    omega

lemma countReplays_cons (a : Action) (as : List Action) :
    countReplays (a :: as) =
      (if a = Action.updateAllKeys then 1 else 0) + countReplays as := by
  simp only [countReplays, List.filter_cons]
  split
  · simp_all [Nat.add_comm]
  · simp_all

lemma countReplays_readPhase (st : LoopState) (rd : ReadResult) :
    countReplays (readPhase st rd).2 = 0 := by
  cases rd with
  | data d =>
    simp only [readPhase]
    cases hp : parseKeyEvent d with
    | none => rfl
    | some ev =>
      obtain ⟨r, l, sv⟩ := ev
      cases sv <;> simp [countReplays]
  | timeout => rfl
  | fatalErr => rfl
  | otherErr => rfl

/-! ### Claim theorems -/

/-- Claim C1: for every image byte sequence and every slot in 0..255,
`set_key_image` hands `_send_report` exactly one header payload carrying
the magic, the opcode, the 4-byte big-endian image size and the slot
byte, then exactly `ceil(len/512)` data-chunk payloads carrying the image
bytes in order (each at most 512 bytes, concatenating back to the image),
then exactly one `STP` commit payload, in that order with nothing else
interleaved. In particular a 1050-byte image to slot 3 with opcode `BAT`
yields 1 header (`size = 1050`, encoded `[0,0,4,26]`, slot 3) + 3 data
reports (512+512+26 bytes, the last zero-padded to 512 on the wire) +
1 commit, 5 reports in all. -/
theorem upload_emits_header_chunks_commit (cmd : List Nat) (key : Int)
    (img : List Nat) (h0 : 0 ≤ key) (h1 : key ≤ 255) :
    (setKeyImagePayloads cmd key img =
        (MAGIC ++ cmd ++ toBytesBE4 img.length ++ [key.toNat])
          :: chunkPayloads img ++ [MAGIC ++ CMD_STP]
      ∧ (chunkPayloads img).length = (img.length + 511) / 512
      ∧ (chunkPayloads img).flatten = img
      ∧ (∀ c ∈ chunkPayloads img, c.length ≤ 512))
    ∧ ((chunkPayloads (List.replicate 1050 0x25)).map List.length = [512, 512, 26]
      ∧ toBytesBE4 1050 = [0, 0, 4, 26]
      ∧ sendReportWire ((List.replicate 1050 0x25).drop 1024) =
          0 :: (List.replicate 26 0x25 ++ List.replicate 486 0)
      ∧ (setKeyImagePayloads CMD_BAT 3 (List.replicate 1050 0x25)).length = 5) := by
  refine ⟨⟨?_, chunkPayloads_length img, chunkPayloads_flatten img, chunkPayloads_short img⟩,
    by decide, by decide, by decide, by decide⟩
  simp [setKeyImagePayloads, bytesSingle, h0, h1]

/-- Witness for C1 at a concrete input: a 2-byte image to slot 3. -/
theorem upload_emits_header_chunks_commit_instance :
    setKeyImagePayloads CMD_BAT 3 [7, 8] =
      (MAGIC ++ CMD_BAT ++ toBytesBE4 2 ++ [3]) :: chunkPayloads [7, 8] ++ [MAGIC ++ CMD_STP] :=
  (upload_emits_header_chunks_commit CMD_BAT 3 [7, 8] (by decide) (by decide)).1.1

/-- Claim C2: after the handle is dropped, each successful reopen of the
device triggers exactly one configuration replay, brightness first, then
the per-key images, before key-event dispatch resumes; one replay happens
exactly when an iteration starts with no handle and the reopen succeeds;
and the concrete trace "fatal read error, environment still erroring,
successful reopen, then a key report" produces exactly one replay
followed by normal dispatch. -/
theorem reconnect_replays_config_once :
    (∀ st op rd, st.device = none → op = OpenResult.ok →
        ∃ rest, (iteration st op rd).2 =
          Action.setBright st.brightness :: Action.updateAllKeys :: rest)
    ∧ (∀ st op rd, countReplays (iteration st op rd).2 =
        if st.device = none ∧ op = OpenResult.ok then 1 else 0)
    ∧ (∀ b : Nat,
        runTrace ⟨some (), b⟩
          [(OpenResult.fail, ReadResult.fatalErr), (OpenResult.fail, ReadResult.fatalErr),
           (OpenResult.ok, ReadResult.timeout),
           (OpenResult.fail, ReadResult.data [0, 0, 0, 0, 0, 0, 0, 0, 0, 0x0b, 0x01])] =
          (⟨some (), b⟩, [Action.setBright b, Action.updateAllKeys, Action.dispatchKey 1])) := by
  refine ⟨?_, ?_, fun b => rfl⟩
  · intro st op rd hdev hop
    subst hop
    obtain ⟨dev, b⟩ := st
    simp at hdev
    subst hdev
    simp only [iteration]
    exact ⟨(readPhase ⟨some (), b⟩ rd).2, rfl⟩
  · intro st op rd
    obtain ⟨dev, b⟩ := st
    cases dev with
    | none =>
      cases op with
      | ok =>
        simp only [iteration, countReplays_cons]
        simp [countReplays_readPhase]
      | fail => simp [iteration, countReplays]
    | some u =>
      cases u
      simp only [iteration]
      simp [countReplays_readPhase]

/-- Witness for C2: a reopen from the disconnected state replays the
configuration, brightness first. -/
theorem reconnect_replays_config_once_instance :
    ∃ rest, (iteration ⟨none, 42⟩ OpenResult.ok ReadResult.timeout).2 =
      Action.setBright 42 :: Action.updateAllKeys :: rest :=
  (reconnect_replays_config_once).1 ⟨none, 42⟩ OpenResult.ok ReadResult.timeout rfl rfl

/-- Claim C3, counterexample: a transport write failure on the header
report does NOT abort the upload and is not surfaced as an error result.
With a 3-byte image (payloads: header, one chunk, commit) whose first
write raises a non-fatal `OSError` ("Input/output error" matches neither
"device" nor "broken pipe"), all 3 reports of the sequence are still
written and the handle survives — under the claim only the header write
would have been attempted. -/
theorem upload_not_aborted_on_nonfatal_failure :
    ((setKeyImageSend (some ()) CMD_BAT 3 [1, 2, 3]
        (fun i => if i = 0 then WriteOutcome.osError "Input/output error".data
                  else WriteOutcome.ok)).2).length = 3
    ∧ (setKeyImageSend (some ()) CMD_BAT 3 [1, 2, 3]
        (fun i => if i = 0 then WriteOutcome.osError "Input/output error".data
                  else WriteOutcome.ok)).1 = some () :=
  ⟨by decide, by decide⟩

/-- Claim C3 as amended: `set_key_image` never surfaces a transport
failure to its caller (every exception is caught and logged); only a
fatal-classified `OSError` (message containing "device" or "broken
pipe", case-insensitive) aborts the rest of the sequence, by dropping
the handle so every later `_send_report` call of the sequence writes
nothing; after such a failure the handle is gone. -/
theorem upload_stops_after_fatal_failure (device : Option Unit)
    (l1 l2 : List (List Nat × WriteOutcome)) (p : List Nat) (msg : List Char)
    (h : isFatalMsg msg = true) :
    (sendSeq device (l1 ++ (p, WriteOutcome.osError msg) :: l2)).2 =
      (sendSeq device (l1 ++ [(p, WriteOutcome.osError msg)])).2
    ∧ (sendSeq device (l1 ++ (p, WriteOutcome.osError msg) :: l2)).1 = none := by
  have key : ∀ (dv : Option Unit) (l' : List (List Nat × WriteOutcome)),
      sendSeq dv ((p, WriteOutcome.osError msg) :: l') =
        (none, (sendReport dv p (.osError msg)).writes) := by
    intro dv l'
    simp [sendSeq, sendReport_fatal dv p msg h, sendSeq_none]
  rw [sendSeq_split device l1 ((p, WriteOutcome.osError msg) :: l2),
    sendSeq_split device l1 [(p, WriteOutcome.osError msg)],
    key _ l2, key _ []]
  exact ⟨rfl, rfl⟩

/-- Witness for the amended C3: after a fatal "No such device" failure
mid-sequence, the trailing report adds no write and the handle is gone. -/
theorem upload_stops_after_fatal_failure_instance :
    (sendSeq (some ()) ([([1], WriteOutcome.ok)] ++
        ([2], WriteOutcome.osError "No such device".data) :: [([3], WriteOutcome.ok)])).2 =
      (sendSeq (some ()) ([([1], WriteOutcome.ok)] ++
        [([2], WriteOutcome.osError "No such device".data)])).2
    ∧ (sendSeq (some ()) ([([1], WriteOutcome.ok)] ++
        ([2], WriteOutcome.osError "No such device".data) :: [([3], WriteOutcome.ok)])).1 = none :=
  upload_stops_after_fatal_failure (some ()) [([1], .ok)] [([3], .ok)] [2]
    "No such device".data (by decide)

/-- Claim C4: key-event parsing yields no event when the report is
shorter than 11 bytes or when byte 9 is `0x00` or `0xFF`; otherwise the
raw scan code is byte 9 and the state byte 10, `0x01` meaning pressed
and `0x02` meaning released. -/
theorem parse_key_event_guards (data : List Nat) :
    (data.length < 11 → parseKeyEvent data = none)
    ∧ ((data.getD 9 0 = 0x00 ∨ data.getD 9 0 = 0xFF) → parseKeyEvent data = none)
    ∧ (11 ≤ data.length → data.getD 9 0 ≠ 0x00 → data.getD 9 0 ≠ 0xFF →
        (data.getD 10 0 = 0x01 →
          parseKeyEvent data =
            some ⟨data.getD 9 0, keyMapGet (data.getD 9 0), KState.pressed⟩)
        ∧ (data.getD 10 0 = 0x02 →
          parseKeyEvent data =
            some ⟨data.getD 9 0, keyMapGet (data.getD 9 0), KState.released⟩)) := by
  refine ⟨?_, ?_, ?_⟩
  · intro h
    simp only [parseKeyEvent]
    rw [if_neg (by omega)]
  · intro h
    simp only [parseKeyEvent]
    split
    · rw [if_neg (by omega)]
    · rfl
  · intro hl h0 hff
    constructor
    · intro h10
      simp only [parseKeyEvent]
      rw [if_pos hl, if_pos ⟨hff, h0⟩, if_pos h10]
    · intro h10
      simp only [parseKeyEvent]
      rw [if_pos hl, if_pos ⟨hff, h0⟩, if_neg (by omega), if_pos h10]

/-- Witness for C4: a short report, an idle frame, and a release report. -/
theorem parse_key_event_guards_instance :
    parseKeyEvent [1, 2, 3] = none
    ∧ parseKeyEvent [0, 0, 0, 0, 0, 0, 0, 0, 0, 0, 1] = none
    ∧ parseKeyEvent [0, 0, 0, 0, 0, 0, 0, 0, 0, 0x0b, 0x02] =
        some ⟨0x0b, 1, KState.released⟩ :=
  ⟨(parse_key_event_guards [1, 2, 3]).1 (by decide),
   (parse_key_event_guards [0, 0, 0, 0, 0, 0, 0, 0, 0, 0, 1]).2.1 (by decide),
   ((parse_key_event_guards [0, 0, 0, 0, 0, 0, 0, 0, 0, 0x0b, 0x02]).2.2
      (by decide) (by decide) (by decide)).2 (by decide)⟩

/-- Claim C5: the 15 physical scan codes resolve via the fixed table to
the documented logical keys 1–15 (top row `0x0b..0x0f` → 1..5, middle
`0x06..0x0a` → 6..10, bottom `0x01..0x05` → 11..15); any scan code
outside the table maps to itself; and a report with bytes 9,10 equal to
`0x0b 0x01` decodes to logical key 1, pressed. -/
theorem scan_code_mapping :
    (keyMapGet 0x0b = 1 ∧ keyMapGet 0x0c = 2 ∧ keyMapGet 0x0d = 3 ∧ keyMapGet 0x0e = 4 ∧
     keyMapGet 0x0f = 5 ∧ keyMapGet 0x06 = 6 ∧ keyMapGet 0x07 = 7 ∧ keyMapGet 0x08 = 8 ∧
     keyMapGet 0x09 = 9 ∧ keyMapGet 0x0a = 10 ∧ keyMapGet 0x01 = 11 ∧ keyMapGet 0x02 = 12 ∧
     keyMapGet 0x03 = 13 ∧ keyMapGet 0x04 = 14 ∧ keyMapGet 0x05 = 15)
    ∧ (∀ raw, raw ∉ key_map.map Prod.fst → keyMapGet raw = raw)
    ∧ parseKeyEvent [0, 0, 0, 0, 0, 0, 0, 0, 0, 0x0b, 0x01] =
        some ⟨0x0b, 1, KState.pressed⟩ := by
  refine ⟨by decide, ?_, by decide⟩
  intro raw h
  have h16 : raw = 0 ∨ 16 ≤ raw := by
    simp [key_map] at h
    omega
  rcases h16 with h0 | h16
  · subst h0
    rfl
  · obtain ⟨k, rfl⟩ := Nat.exists_eq_add_of_le h16
    rw [Nat.add_comm]
    rfl

/-- Witness for C5: the undefined scan code 99 maps to itself. -/
theorem scan_code_mapping_instance : keyMapGet 99 = 99 :=
  (scan_code_mapping).2.1 99 (by decide)

/-- Claim C6: `set_brightness(0)` emits one global brightness-zero
command followed by exactly 256 per-slot zero commands in slot order
0..255 (257 payloads in all); any nonzero level in the valid byte range
emits exactly the one global command carrying that level and no sweep. -/
theorem set_brightness_commands :
    ((setBrightnessPayloads 0).length = 257)
    ∧ ((setBrightnessPayloads 0).getD 0 [] = MAGIC ++ CMD_LIG ++ [0])
    ∧ (∀ idx : Nat, idx < 256 →
        (setBrightnessPayloads 0).getD (idx + 1) [] =
          MAGIC ++ CMD_LIG ++ [0, 0, 0, 0] ++ [idx])
    ∧ (∀ v : Int, v ≠ 0 → 0 ≤ v → v ≤ 255 →
        setBrightnessPayloads v = [MAGIC ++ CMD_LIG ++ [v.toNat]]) := by
  refine ⟨by simp [setBrightnessPayloads], rfl, ?_, ?_⟩
  · intro idx hidx
    unfold setBrightnessPayloads
    rw [if_pos rfl, List.getD_cons_succ, List.getD_eq_getElem _ _ (by simpa using hidx)]
    simp [toBytesBE4, MAGIC, CMD_LIG]
  · intro v hne h0 h255
    simp [setBrightnessPayloads, bytesSingle, hne, h0, h255]

/-- Witness for C6: slot 7 of the zero sweep, and level 50. -/
theorem set_brightness_commands_instance :
    (setBrightnessPayloads 0).getD 8 [] = MAGIC ++ CMD_LIG ++ [0, 0, 0, 0] ++ [7]
    ∧ setBrightnessPayloads 50 = [MAGIC ++ CMD_LIG ++ [(50 : Int).toNat]] :=
  ⟨(set_brightness_commands).2.2.1 7 (by decide),
   (set_brightness_commands).2.2.2 50 (by decide) (by decide) (by decide)⟩

/-- Claim C7: every byte string handed to `device.write` is exactly 513
bytes — a `0x00` report-id byte then a 512-byte payload — with payloads
shorter than 512 zero-padded on the right and longer ones truncated (the
byte at wire position `i+1` is payload byte `i` for `i < 512`, and `0`
in the padding region). -/
theorem wire_report_framing (p : List Nat) :
    (sendReportWire p).length = 513
    ∧ (sendReportWire p).getD 0 0xAA = 0
    ∧ (∀ i, i < p.length → i < 512 → (sendReportWire p).getD (i + 1) 0xAA = p.getD i 0xBB)
    ∧ (∀ i, p.length ≤ i → i < 512 → (sendReportWire p).getD (i + 1) 0xAA = 0) := by
  refine ⟨?_, rfl, ?_, ?_⟩
  · simp [sendReportWire, adjustPayload_length]
  · intro i hip hi
    simp only [sendReportWire, List.getD_cons_succ]
    unfold adjustPayload REPORT_SIZE
    split
    · rw [List.getD_eq_getElem _ _ (by simp; omega), List.getD_eq_getElem _ _ hip]
      simp [List.getElem_take]
    · rw [List.getD_append _ _ _ _ hip, List.getD_eq_getElem _ _ hip,
        List.getD_eq_getElem _ _ hip]
  · intro i hpi hi
    simp only [sendReportWire, List.getD_cons_succ]
    unfold adjustPayload REPORT_SIZE
    split
    · omega
    · rw [List.getD_append_right _ _ _ _ hpi,
        List.getD_eq_getElem _ _ (by simp; omega)]
      simp

/-- Witness for C7: a 2-byte payload is padded; byte 2 carries data,
byte 3 is padding. -/
theorem wire_report_framing_instance :
    (sendReportWire [9, 9]).getD 2 0xAA = [9, 9].getD 1 0xBB
    ∧ (sendReportWire [9, 9]).getD 3 0xAA = 0 :=
  ⟨(wire_report_framing [9, 9]).2.2.1 1 (by decide) (by decide),
   (wire_report_framing [9, 9]).2.2.2 2 (by decide) (by decide)⟩

/-- Claim C8: with a device handle held, a decoded pressed edge invokes
the external key handler exactly once (the iteration's actions are
exactly one dispatch), a released edge is only logged and never
dispatched, and an undecodable report dispatches nothing. -/
theorem dispatch_on_press_only (st : LoopState) (op : OpenResult) (d : List Nat)
    (h : st.device = some ()) :
    (∀ ev, parseKeyEvent d = some ev → ev.state = KState.pressed →
        (iteration st op (.data d)).2 = [Action.dispatchKey ev.logical])
    ∧ (∀ ev, parseKeyEvent d = some ev → ev.state = KState.released →
        (iteration st op (.data d)).2 = [Action.logRelease ev.logical])
    ∧ (parseKeyEvent d = none → (iteration st op (.data d)).2 = []) := by
  refine ⟨?_, ?_, ?_⟩
  · intro ev hev hst
    obtain ⟨r, l, s⟩ := ev
    simp only at hst
    subst hst
    simp [iteration, h, readPhase, hev]
  · intro ev hev hst
    obtain ⟨r, l, s⟩ := ev
    simp only at hst
    subst hst
    simp [iteration, h, readPhase, hev]
  · intro hnone
    simp [iteration, h, readPhase, hnone]

/-- Witness for C8: the pressed report for physical code `0x0b`
dispatches logical key 1 exactly once. -/
theorem dispatch_on_press_only_instance :
    (iteration ⟨some (), 5⟩ OpenResult.fail
        (ReadResult.data [0, 0, 0, 0, 0, 0, 0, 0, 0, 0x0b, 0x01])).2 =
      [Action.dispatchKey 1] :=
  (dispatch_on_press_only ⟨some (), 5⟩ OpenResult.fail
      [0, 0, 0, 0, 0, 0, 0, 0, 0, 0x0b, 0x01] rfl).1
    ⟨0x0b, 1, KState.pressed⟩ (by decide) rfl

/-- Claim C9: a slot index outside 0..255 is rejected while the command
is still being built (`bytes([slot])` raises, the exception is caught),
so no report at all — header, data chunk or commit — is handed to
`_send_report`, for image uploads and for brightness commands alike. -/
theorem invalid_slot_rejected_before_write (cmd : List Nat) (key value : Int)
    (img : List Nat) (hk : key < 0 ∨ 255 < key) (hv : value < 0 ∨ 255 < value) :
    setKeyImagePayloads cmd key img = [] ∧ setBrightnessPayloads value = [] := by
  have hbk : bytesSingle key = none := by
    unfold bytesSingle
    rw [if_neg (by omega)]
  have hbv : bytesSingle value = none := by
    unfold bytesSingle
    rw [if_neg (by omega)]
  constructor
  · simp [setKeyImagePayloads, hbk]
  · simp [setBrightnessPayloads, hbv, show ¬(value = 0) by omega]

/-- Witness for C9: slot 300 and brightness −1 produce no reports. -/
theorem invalid_slot_rejected_before_write_instance :
    setKeyImagePayloads CMD_BAT 300 [1] = [] ∧ setBrightnessPayloads (-1) = [] :=
  invalid_slot_rejected_before_write CMD_BAT 300 (-1) [1]
    (Or.inr (by decide)) (Or.inl (by decide))

/-- Claim C10: `_send_report` never raises (its model is total with no
error outcome): with no handle it writes nothing; with a handle it
always performs exactly the one wire write; on an `OSError` the handle
is cleared exactly when the message contains `"device"` or
`"broken pipe"` case-insensitively; success and non-`OSError` exceptions
leave the handle in place. -/
theorem send_report_error_policy :
    (∀ p oc, (sendReport none p oc).writes = [])
    ∧ (∀ p oc, (sendReport (some ()) p oc).writes = [sendReportWire p])
    ∧ (∀ p msg, (sendReport (some ()) p (.osError msg)).device = none ↔
        (strIn "device".data (strLower msg) = true ∨
         strIn "broken pipe".data (strLower msg) = true))
    ∧ (∀ p, (sendReport (some ()) p .ok).device = some ())
    ∧ (∀ p, (sendReport (some ()) p .otherError).device = some ()) := by
  refine ⟨fun p oc => rfl, fun p oc => by cases oc <;> rfl, ?_, fun p => rfl, fun p => rfl⟩
  intro p msg
  have hdev : (sendReport (some ()) p (.osError msg)).device =
      if isFatalMsg msg then none else some () := rfl
  rw [hdev]
  cases hb : isFatalMsg msg with
  | false =>
    simp only [Bool.false_eq_true, if_false]
    simp only [isFatalMsg, Bool.or_eq_false_iff] at hb
    simp [hb.1, hb.2]
  | true =>
    simp only [if_true]
    simp only [isFatalMsg, Bool.or_eq_true] at hb
    simpa using hb

end StreamDock
